import Mathlib

/-!
Verification of the dispatch worker, delivery fan-out and HTTP gateway of
the `ntc-docs-email-sender` repository (`cmd/cmd.go`), shallowly embedded
in Lean 4.

The embedding mirrors the Go source:
* `Recipient`, `Header`, `EmailSendRequest`, `EmailSendOutcome` are the
  structs of `cmd/cmd.go` (a Go `error` value becomes `Option String`,
  `nil` becoming `none`).
* `Header.toString` is the method `Header.ToString` (cmd.go:93-102).
* `processRequest` is the body of the `for cmd := range ch` loop of
  `EmailerInstance` (cmd.go:134-155): render once, on error publish a
  single outcome and continue, otherwise loop over the recipients,
  calling `smtp.SendMail` and publishing one outcome per recipient.
  The calls to `smtp.SendMail` and the channel sends are recorded as an
  explicit event trace.
* `clientHandler` is the HTTP handler of the same file (cmd.go:158-192).
* The unbuffered reply channel and the gateway reading exactly one
  outcome are modelled by `workerReaches`/`callerGetsReply`.
-/

namespace EmailSender

/-- Struct `Recipient` of cmd.go (the `Miscellaneous interface{}` field is
modelled as a string; the worker never inspects it). -/
structure Recipient where
  name : String
  title : String
  address : String
  misc : String
  deriving Repr, DecidableEq

/-- Struct `Header` of cmd.go: static header fields, the `To` line is
supplied per recipient. -/
structure Header where
  From : String
  subject : String
  mime : String
  misc : String
  deriving Repr, DecidableEq

/-- Struct `EmailSendRequest` of cmd.go, without the reply-channel field
(channels are modelled by the event trace and the reader model below). -/
structure EmailSendRequest where
  ipAddress : String := ""
  firstName : String := ""
  lastName : String := ""
  companyName : String := ""
  emailAddress : String := ""
  description : String := ""
  deriving Repr, DecidableEq

/-- Struct `EmailSendOutcome` of cmd.go: a single `error` field,
`none` standing for Go's `nil`. -/
structure EmailSendOutcome where
  error : Option String
  deriving Repr, DecidableEq

/-- `Header.ToString` (cmd.go:93-102):
`fmt.Sprintf("From: %s\nTo: %s\nSubject: %s\n%s\n%s\n", h.From, to, h.Subject, h.MIME, h.Miscellaneous)`. -/
def Header.toString (h : Header) (toAddr : String) : String :=
  "From: " ++ h.From ++ "\nTo: " ++ toAddr ++ "\nSubject: " ++ h.subject ++
    "\n" ++ h.mime ++ "\n" ++ h.misc ++ "\n"

/-- One observable action of the worker loop: a call to `smtp.SendMail`
(destination address and full message bytes), or a send of an outcome on
the request's reply channel (`cmd.Result <- ...`). -/
inductive WorkerEvent where
  | sendMail (toAddress : String) (message : String)
  | publish (o : EmailSendOutcome)
  deriving Repr, DecidableEq

/-- The recipient fan-out loop of `EmailerInstance` (cmd.go:141-154):
for each recipient, call `smtp.SendMail` with the header re-stringified
for that recipient concatenated with the shared rendered body, then
publish the returned error as an outcome.  `send addr msg` is the result
of `smtp.SendMail` for that address and message (`none` = success). -/
def deliverLoop (h : Header) (body : String)
    (send : String → String → Option String) :
    List Recipient → List WorkerEvent
  | [] => []
  | r :: rs =>
    let msg := h.toString r.address ++ body
    WorkerEvent.sendMail r.address msg ::
      WorkerEvent.publish ⟨send r.address msg⟩ ::
        deliverLoop h body send rs

/-- The body of the request loop of `EmailerInstance` (cmd.go:134-155)
for one dequeued request: `renderResult` is the result of
`m.template.Execute(buf, cmd)` (`.ok body` when it succeeds with rendered
body `body`, `.error e` when it fails).  On error, exactly one outcome
carrying the error is published and the worker continues; otherwise the
fan-out loop runs. -/
def processRequest (h : Header) (recips : List Recipient)
    (renderResult : Except String String)
    (send : String → String → Option String) : List WorkerEvent :=
  match renderResult with
  | .error e => [WorkerEvent.publish ⟨some e⟩]
  | .ok body => deliverLoop h body send recips

/-- The outcomes a trace publishes on the reply channel, in order. -/
def publishedOutcomes (evs : List WorkerEvent) : List EmailSendOutcome :=
  evs.filterMap fun e =>
    match e with
    | .publish o => some o
    | .sendMail _ _ => none

/-- The `smtp.SendMail` calls of a trace, in order: destination address
and full message bytes. -/
def sendMailCalls (evs : List WorkerEvent) : List (String × String) :=
  evs.filterMap fun e =>
    match e with
    | .sendMail a m => some (a, m)
    | .publish _ => none

/-- `EmailerInstance`'s outer loop (cmd.go:134): the worker processes the
queued requests one after the other, each with the directory snapshot and
render/send functions of the process; it returns the event trace of each
request.  (`render req` is `m.template.Execute(buf, req)`.) -/
def emailerInstance (h : Header) (recips : List Recipient)
    (render : EmailSendRequest → Except String String)
    (send : String → String → Option String) :
    List EmailSendRequest → List (List WorkerEvent)
  | [] => []
  | req :: rest =>
    processRequest h recips (render req) send ::
      emailerInstance h recips render send rest

/-- The parts of a compiled `text/template`: literal text and
field substitutions (`.FieldName` actions). -/
inductive TmplPart where
  | lit (s : String)
  | field (name : String)
  deriving Repr, DecidableEq

/-- The substitution namespace `template.Execute` sees when
`EmailerInstance` runs `m.template.Execute(buf, cmd)` (cmd.go:136): the
exported fields of `EmailSendRequest`, by name. -/
def fieldValue (req : EmailSendRequest) : String → Option String
  | "IPAddress" => some req.ipAddress
  | "FirstName" => some req.firstName
  | "LastName" => some req.lastName
  | "CompanyName" => some req.companyName
  | "EmailAddress" => some req.emailAddress
  | "Description" => some req.description
  | _ => none

/-- Template execution: literals are copied, `.Field` actions are replaced
by the request's field value; a field that does not exist on
`EmailSendRequest` is an execution error (Go reports it as a
field-evaluation error; the message text here is a placeholder). -/
def renderParts (req : EmailSendRequest) : List TmplPart → Except String String
  | [] => .ok ""
  | .lit s :: rest => (renderParts req rest).map fun t => s ++ t
  | .field n :: rest =>
    match fieldValue req n with
    | none => .error ("cannot evaluate field " ++ n)
    | some v => (renderParts req rest).map fun t => v ++ t

/-- Splits off the literal text before the first `\x7b\x7b` opening
delimiter; returns the literal and, when a delimiter was found, the
characters after it. -/
def splitLit : List Char → List Char × Option (List Char)
  | [] => ([], none)
  | '\x7b' :: '\x7b' :: rest => ([], some rest)
  | c :: rest =>
    let (s, rem) := splitLit rest
    (c :: s, rem)

/-- Splits an action body at the closing `\x7d\x7d` delimiter. -/
def splitAction : List Char → Option (List Char × List Char)
  | [] => none
  | '\x7d' :: '\x7d' :: rest => some ([], rest)
  | c :: rest =>
    (splitAction rest).map fun p => (c :: p.1, p.2)

/-- Parsing loop for `template.New("Body").Parse` (cmd.go:119), restricted
to the fragment the repository uses: literal text interleaved with
`.FieldName` actions.  Fuel is the remaining character count; each
iteration consumes at least the two delimiter characters. -/
def parseLoop : Nat → List Char → Option (List TmplPart)
  | _, [] => some []
  | 0, _ :: _ => none
  | Nat.succ fuel, cs =>
    match splitLit cs with
    | (lit, none) => some [TmplPart.lit (String.mk lit)]
    | (lit, some rest) =>
      match splitAction rest with
      | none => none
      | some (act, rem) =>
        match act with
        | '.' :: nameChars =>
          (parseLoop fuel rem).map fun ps =>
            TmplPart.lit (String.mk lit) ::
              TmplPart.field (String.mk nameChars) :: ps
        | _ => none

/-- Compile a template text (cmd.go:119); `none` models a fatal
`TemplateSyntaxError` at startup. -/
def parseTemplate (s : String) : Option (List TmplPart) :=
  parseLoop s.length s.data

/-- `r.FormValue(key)` of `net/http`: the first form value for the key,
or the empty string when the key is absent. -/
def formValue (form : List (String × String)) (key : String) : String :=
  match form.lookup key with
  | some v => v
  | none => ""

/-- The `EmailSendRequest` the handler constructs from a parsed POST form
(cmd.go:165-171). -/
def buildRequest (remoteAddr : String) (form : List (String × String)) :
    EmailSendRequest :=
  { ipAddress := remoteAddr
    firstName := formValue form "firstName"
    lastName := formValue form "lastName"
    companyName := formValue form "company"
    emailAddress := formValue form "email"
    description := formValue form "description" }

/-- An HTTP response: status code and body text. -/
structure HttpResponse where
  status : Nat
  body : String
  deriving Repr, DecidableEq

/-- Observable effects of one `clientHandler` invocation: the response
written (`none` models blocking forever on the reply read), how many
outcomes were read off the reply channel, and the requests submitted to
the worker queue. -/
structure HandlerResult where
  response : Option HttpResponse
  outcomesRead : Nat
  submitted : List EmailSendRequest
  deriving Repr, DecidableEq

/-- `clientHandler` (cmd.go:158-192).  `parseFormOk` is whether
`r.ParseForm()` succeeded; `replies` is the stream of outcomes the worker
publishes for this request's reply channel, of which the handler reads
exactly one (`outcome := <-result`).  Non-POST methods get
`http.StatusNotImplemented` (501) and submit nothing. -/
def clientHandler (method : String) (parseFormOk : Bool)
    (form : List (String × String)) (remoteAddr : String)
    (replies : List EmailSendOutcome) : HandlerResult :=
  if method = "POST" then
    if parseFormOk = false then
      { response := some ⟨400, "Invalid Form"⟩, outcomesRead := 0
        submitted := [] }
    else
      let data := buildRequest remoteAddr form
      match replies with
      | [] => { response := none, outcomesRead := 0, submitted := [data] }
      | o :: _ =>
        match o.error with
        | some _ =>
          { response := some ⟨500, "Internal Error"⟩, outcomesRead := 1
            submitted := [data] }
        | none =>
          { response := some ⟨200, "Success!"⟩, outcomesRead := 1
            submitted := [data] }
  else
    { response := some ⟨501, "Invalid request"⟩, outcomesRead := 0
      submitted := [] }

/-- How many outcomes the worker publishes for each queued request, in
queue order. -/
def outcomeCounts (h : Header) (recips : List Recipient)
    (render : EmailSendRequest → Except String String)
    (send : String → String → Option String)
    (reqs : List EmailSendRequest) : List Nat :=
  (emailerInstance h recips render send reqs).map
    fun evs => (publishedOutcomes evs).length

/-- Reply channels are unbuffered and each gateway task reads exactly one
outcome and returns.  The worker's first publish for request `j` pairs
with that read; a second publish blocks the worker forever.  So the
worker reaches request `i` iff every earlier request published at most
one outcome. -/
def workerReaches (ks : List Nat) (i : Nat) : Bool :=
  (List.range i).all fun j => ks.getD j 0 ≤ 1

/-- Caller `i` (in queue order) eventually receives an outcome iff the
worker reaches its request and publishes at least one outcome for it. -/
def callerGetsReply (ks : List Nat) (i : Nat) : Bool :=
  workerReaches ks i && 1 ≤ ks.getD i 0

/-- `m.Recipients` is a Go `map[string]Recipient`; a `range` iteration
visits every entry exactly once in an unspecified order, so a valid
iteration order for a dispatch cycle is any permutation of the directory
entries. -/
def IterOrder (dir order : List (String × Recipient)) : Prop :=
  order.Perm dir

/-- The full message bytes `smtp.SendMail` receives for recipient `r`
(cmd.go:147): the header re-stringified with this recipient's address,
concatenated with the shared rendered body. -/
def recipientMessage (h : Header) (body : String) (r : Recipient) : String :=
  h.toString r.address ++ body

/-! ## Helper lemmas about the fan-out loop -/

theorem publishedOutcomes_nil : publishedOutcomes [] = [] := rfl

theorem deliverLoop_join (h : Header) (body : String)
    (send : String → String → Option String) (recips : List Recipient) :
    deliverLoop h body send recips =
      (recips.map fun r =>
        [WorkerEvent.sendMail r.address (h.toString r.address ++ body),
         WorkerEvent.publish ⟨send r.address (h.toString r.address ++ body)⟩]).flatten := by
  induction recips with
  | nil => rfl
  | cons r rs ih => simp [deliverLoop, ih]

theorem publishedOutcomes_deliverLoop (h : Header) (body : String)
    (send : String → String → Option String) (recips : List Recipient) :
    publishedOutcomes (deliverLoop h body send recips) =
      recips.map fun r => ⟨send r.address (h.toString r.address ++ body)⟩ := by
  induction recips with
  | nil => rfl
  | cons r rs ih => simp [deliverLoop, publishedOutcomes] at ih ⊢; exact ih

theorem sendMailCalls_deliverLoop (h : Header) (body : String)
    (send : String → String → Option String) (recips : List Recipient) :
    sendMailCalls (deliverLoop h body send recips) =
      recips.map fun r => (r.address, h.toString r.address ++ body) := by
  induction recips with
  | nil => rfl
  | cons r rs ih => simp [deliverLoop, sendMailCalls] at ih ⊢; exact ih

/-! ## Claims -/

/-- C1 (counterexample): with a directory of two recipients and a request
whose rendering fails, the worker publishes exactly one Outcome, not two:
the claimed equality between Outcome count and recipient count fails in
the render-failure case. -/
theorem C1_counterexample :
    (publishedOutcomes
        (processRequest ⟨"from", "subj", "mime", "misc"⟩
          [⟨"Alice", "Dr", "alice@example.com", ""⟩,
           ⟨"Bob", "Mr", "bob@example.com", ""⟩]
          (.error "template error") (fun _ _ => none))).length = 1
    ∧ ([⟨"Alice", "Dr", "alice@example.com", ""⟩,
        ⟨"Bob", "Mr", "bob@example.com", ""⟩] : List Recipient).length = 2
    ∧ (1 : Nat) ≠ 2 := by
  refine ⟨rfl, rfl, by decide⟩

/-- C1 (amended): when rendering succeeds the worker publishes exactly one
Outcome per recipient of the directory snapshot, but when rendering fails
it publishes exactly one Outcome in total, regardless of the number of
recipients. -/
theorem C1_outcome_count (h : Header) (recips : List Recipient)
    (send : String → String → Option String) :
    (∀ body, (publishedOutcomes
        (processRequest h recips (.ok body) send)).length = recips.length)
    ∧ ∀ e, (publishedOutcomes
        (processRequest h recips (.error e) send)).length = 1 := by
  constructor
  · intro body
    simp [processRequest, publishedOutcomes_deliverLoop]
  · intro e
    simp [processRequest, publishedOutcomes]

/-- C3 (counterexample): rendering failure with two recipients produces
the single-element trace `[publish (render error)]`: one failure Outcome,
not one per recipient slot. -/
theorem C3_counterexample :
    processRequest ⟨"noreply", "hi", "MIME", "m"⟩
        [⟨"Carol", "Ms", "carol@example.net", ""⟩,
         ⟨"Dave", "Mr", "dave@example.net", ""⟩]
        (.error "bad field") (fun _ _ => none) =
      [WorkerEvent.publish ⟨some "bad field"⟩]
    ∧ (publishedOutcomes
        (processRequest ⟨"noreply", "hi", "MIME", "m"⟩
          [⟨"Carol", "Ms", "carol@example.net", ""⟩,
           ⟨"Dave", "Mr", "dave@example.net", ""⟩]
          (.error "bad field") (fun _ _ => none))).length ≠ 2 := by
  refine ⟨rfl, by decide⟩

/-- C3 (amended): if rendering a request fails, the worker publishes
exactly one Outcome carrying the render error (regardless of the number
of recipients), never calls `smtp.SendMail` for that request, and
continues with the next queued request unaffected. -/
theorem C3_render_failure (h : Header) (recips : List Recipient)
    (send : String → String → Option String)
    (render : EmailSendRequest → Except String String)
    (rest : List EmailSendRequest) (reqFail : EmailSendRequest) (e : String)
    (hr : render reqFail = .error e) :
    emailerInstance h recips render send (reqFail :: rest) =
      [WorkerEvent.publish ⟨some e⟩] ::
        emailerInstance h recips render send rest
    ∧ sendMailCalls (processRequest h recips (.error e) send) = []
    ∧ publishedOutcomes (processRequest h recips (.error e) send) =
        [⟨some e⟩] := by
  refine ⟨?_, rfl, rfl⟩
  simp [emailerInstance, hr, processRequest]

/-- C3 witness. -/
theorem C3_render_failure_witness :
    emailerInstance ⟨"f", "s", "m", "x"⟩ [⟨"Eve", "Ms", "eve@example.org", ""⟩]
        (fun _ => .error "boom") (fun _ _ => none) [{}] =
      [[WorkerEvent.publish ⟨some "boom"⟩]] := by
  have h := C3_render_failure ⟨"f", "s", "m", "x"⟩
    [⟨"Eve", "Ms", "eve@example.org", ""⟩] (fun _ _ => none)
    (fun _ => .error "boom") [] {} "boom" rfl
  exact h.1

/-- C4 (confirmed): when rendering succeeds, the dispatch cycle is exactly
one `smtp.SendMail` call per recipient, each immediately followed by the
publication of that call's Outcome; each recipient's Outcome is
`send` applied to that recipient alone, so a delivery failure for one
recipient cannot change the attempt or the Outcome of any other. -/
theorem C4_fanout (h : Header) (body : String)
    (send : String → String → Option String) (recips : List Recipient) :
    processRequest h recips (.ok body) send =
      (recips.map fun r =>
        [WorkerEvent.sendMail r.address (recipientMessage h body r),
         WorkerEvent.publish ⟨send r.address (recipientMessage h body r)⟩]).flatten
    ∧ sendMailCalls (processRequest h recips (.ok body) send) =
        recips.map (fun r => (r.address, recipientMessage h body r))
    ∧ publishedOutcomes (processRequest h recips (.ok body) send) =
        recips.map (fun r => ⟨send r.address (recipientMessage h body r)⟩) := by
  refine ⟨?_, ?_, ?_⟩
  · simpa [processRequest, recipientMessage] using deliverLoop_join h body send recips
  · simpa [processRequest, recipientMessage] using sendMailCalls_deliverLoop h body send recips
  · simpa [processRequest, recipientMessage] using publishedOutcomes_deliverLoop h body send recips

/-- C5 (confirmed): the message bytes handed to `smtp.SendMail` for each
recipient are the header stringified with the `To:` line set to that
recipient's delivery address, concatenated with the request's rendered
body; the same `body` string is reused unchanged for every recipient of
the request, only the header part varies. -/
theorem C5_message_bytes (h : Header) (body : String)
    (send : String → String → Option String) (recips : List Recipient) :
    (sendMailCalls (processRequest h recips (.ok body) send)).map Prod.snd =
      recips.map fun r =>
        "From: " ++ h.From ++ "\nTo: " ++ r.address ++ "\nSubject: " ++
          h.subject ++ "\n" ++ h.mime ++ "\n" ++ h.misc ++ "\n" ++ body := by
  simp [processRequest, sendMailCalls_deliverLoop, Header.toString,
    String.append_assoc]

/-! ## The reply-channel blocking model -/

theorem outcomeCounts_singleton (h : Header) (r : Recipient)
    (render : EmailSendRequest → Except String String)
    (send : String → String → Option String) :
    ∀ reqs : List EmailSendRequest,
      outcomeCounts h [r] render send reqs = List.replicate reqs.length 1 := by
  intro reqs
  induction reqs with
  | nil => rfl
  | cons req rest ih =>
    simp only [outcomeCounts, emailerInstance, List.map_cons, List.length_cons,
      List.replicate_succ] at ih ⊢
    rw [List.cons_eq_cons]
    refine ⟨?_, ih⟩
    cases hrender : render req with
    | error e => simp [processRequest, publishedOutcomes]
    | ok body => simp [processRequest, publishedOutcomes_deliverLoop]

theorem callerGetsReply_replicate_one (n i : Nat) (hi : i < n) :
    callerGetsReply (List.replicate n 1) i = true := by
  simp [callerGetsReply, workerReaches, List.getD, List.getElem?_replicate, hi]
  intro j _
  by_cases hj : j < n <;> simp [hj]

/-- C2 (counterexample): with two recipients in the directory and two
queued requests that both render successfully, the second caller never
receives an Outcome: the worker publishes two outcomes for the first
request but its gateway reads only one off the unbuffered reply channel,
so the worker blocks forever before dequeuing the second request. -/
theorem C2_counterexample :
    callerGetsReply
        (outcomeCounts ⟨"from", "subj", "mime", "misc"⟩
          [⟨"Alice", "Dr", "alice@example.com", ""⟩,
           ⟨"Bob", "Mr", "bob@example.com", ""⟩]
          (fun _ => .ok "body") (fun _ _ => none)
          [{}, {}]) 1 = false
    ∧ (1 : Nat) < ([{}, {}] : List EmailSendRequest).length := by
  refine ⟨rfl, by decide⟩

/-- C2 (amended): a caller receives an Outcome iff the worker reaches its
request (every earlier request published at most one Outcome) and its own
request publishes at least one.  In particular, when the directory
snapshot contains exactly one recipient, every caller in every request
sequence eventually receives an Outcome; with two or more recipients the
worker deadlocks after the first successfully rendered request and later
callers block forever. -/
theorem C2_single_recipient (h : Header) (r : Recipient)
    (render : EmailSendRequest → Except String String)
    (send : String → String → Option String)
    (reqs : List EmailSendRequest) (i : Nat) (hi : i < reqs.length) :
    callerGetsReply (outcomeCounts h [r] render send reqs) i = true := by
  rw [outcomeCounts_singleton h r render send reqs]
  exact callerGetsReply_replicate_one reqs.length i hi

/-- C2 witness. -/
theorem C2_single_recipient_witness :
    callerGetsReply
        (outcomeCounts ⟨"f", "s", "m", "x"⟩ [⟨"Eve", "Ms", "eve@example.org", ""⟩]
          (fun _ => .ok "body") (fun _ _ => none) [{}, {}, {}]) 2 = true :=
  C2_single_recipient ⟨"f", "s", "m", "x"⟩ ⟨"Eve", "Ms", "eve@example.org", ""⟩
    (fun _ => .ok "body") (fun _ _ => none) [{}, {}, {}] 2 (by decide)

/-- C6 (confirmed): on a parsed POST whose reply stream starts with an
outcome, the gateway reads exactly one Outcome; if that outcome carries an
error the response is the fixed pair (500, "Internal Error") — the same
for every underlying error string, so the cause is never exposed — and if
the error is nil the response is (200, "Success!"). -/
theorem C6_gateway (addr : String) (form : List (String × String))
    (rest : List EmailSendOutcome) :
    (∀ e : String,
      (clientHandler "POST" true form addr (⟨some e⟩ :: rest)).outcomesRead = 1
      ∧ (clientHandler "POST" true form addr (⟨some e⟩ :: rest)).response =
          some ⟨500, "Internal Error"⟩)
    ∧ (clientHandler "POST" true form addr (⟨none⟩ :: rest)).outcomesRead = 1
    ∧ (clientHandler "POST" true form addr (⟨none⟩ :: rest)).response =
        some ⟨200, "Success!"⟩ := by
  refine ⟨fun e => ⟨rfl, rfl⟩, rfl, rfl⟩

/-- C7 (counterexample): the recipient directory is a Go map, whose
`range` order is unspecified: both the original entry order and its
reversal are valid iteration orders of the same two-entry directory, and
they yield different `smtp.SendMail` sequences (hence different Outcome
orders).  So two dispatch cycles over the same unchanged directory are
not guaranteed the same order. -/
theorem C7_counterexample :
    IterOrder
        [("k1", ⟨"Alice", "Dr", "alice@example.com", ""⟩),
         ("k2", ⟨"Bob", "Mr", "bob@example.com", ""⟩)]
        [("k1", ⟨"Alice", "Dr", "alice@example.com", ""⟩),
         ("k2", ⟨"Bob", "Mr", "bob@example.com", ""⟩)]
    ∧ IterOrder
        [("k1", ⟨"Alice", "Dr", "alice@example.com", ""⟩),
         ("k2", ⟨"Bob", "Mr", "bob@example.com", ""⟩)]
        [("k2", ⟨"Bob", "Mr", "bob@example.com", ""⟩),
         ("k1", ⟨"Alice", "Dr", "alice@example.com", ""⟩)]
    ∧ sendMailCalls
        (processRequest ⟨"f", "s", "m", "x"⟩
          (([("k1", ⟨"Alice", "Dr", "alice@example.com", ""⟩),
             ("k2", ⟨"Bob", "Mr", "bob@example.com", ""⟩)] :
              List (String × Recipient)).map Prod.snd)
          (.ok "body") (fun _ _ => none)) ≠
      sendMailCalls
        (processRequest ⟨"f", "s", "m", "x"⟩
          (([("k2", ⟨"Bob", "Mr", "bob@example.com", ""⟩),
             ("k1", ⟨"Alice", "Dr", "alice@example.com", ""⟩)] :
              List (String × Recipient)).map Prod.snd)
          (.ok "body") (fun _ _ => none)) := by
  refine ⟨List.Perm.refl _, List.Perm.swap _ _ _, by decide⟩

/-- C7 (amended): within one dispatch cycle the Outcomes are published in
that cycle's recipient-iteration order, and every valid iteration order
visits exactly the recipients of the directory snapshot (it is a
permutation of them); but the order is only fixed per cycle, not across
cycles. -/
theorem C7_iteration_order (dir order : List (String × Recipient))
    (h : Header) (body : String) (send : String → String → Option String)
    (hord : IterOrder dir order) :
    publishedOutcomes
        (processRequest h (order.map Prod.snd) (.ok body) send) =
      (order.map Prod.snd).map
        (fun r => ⟨send r.address (h.toString r.address ++ body)⟩)
    ∧ (order.map Prod.snd).Perm (dir.map Prod.snd) :=
  ⟨by simp [processRequest, publishedOutcomes_deliverLoop], hord.map Prod.snd⟩

/-- C7 witness. -/
theorem C7_iteration_order_witness :
    publishedOutcomes
        (processRequest ⟨"f", "s", "m", "x"⟩
          (([("k", ⟨"Eve", "Ms", "eve@example.org", ""⟩)] :
              List (String × Recipient)).map Prod.snd)
          (.ok "b") (fun _ _ => none)) =
      ([("k", ⟨"Eve", "Ms", "eve@example.org", ""⟩)] :
          List (String × Recipient)).map
        (fun _ => ⟨none⟩) :=
  (C7_iteration_order [("k", ⟨"Eve", "Ms", "eve@example.org", ""⟩)]
    [("k", ⟨"Eve", "Ms", "eve@example.org", ""⟩)] ⟨"f", "s", "m", "x"⟩ "b"
    (fun _ _ => none) (List.Perm.refl _)).1

/-- C8 (confirmed): a parsed POST always submits the constructed request
to the worker queue, whatever fields the form carries, and each of the
five caller-supplied fields defaults to the empty string when absent from
the form. -/
theorem C8_missing_fields (addr : String) (form : List (String × String))
    (replies : List EmailSendOutcome) :
    (clientHandler "POST" true form addr replies).submitted =
      [buildRequest addr form]
    ∧ (form.lookup "firstName" = none →
        (buildRequest addr form).firstName = "")
    ∧ (form.lookup "lastName" = none →
        (buildRequest addr form).lastName = "")
    ∧ (form.lookup "company" = none →
        (buildRequest addr form).companyName = "")
    ∧ (form.lookup "email" = none →
        (buildRequest addr form).emailAddress = "")
    ∧ (form.lookup "description" = none →
        (buildRequest addr form).description = "") := by
  refine ⟨?_, ?_, ?_, ?_, ?_, ?_⟩
  · cases replies with
    | nil => rfl
    | cons o rest => cases ho : o.error <;> simp [clientHandler, ho]
  all_goals intro hnone
  all_goals simp [buildRequest, formValue, hnone]

/-- C8 witness. -/
theorem C8_missing_fields_witness :
    (clientHandler "POST" true [] "203.0.113.9" []).submitted =
      [buildRequest "203.0.113.9" []]
    ∧ (buildRequest "203.0.113.9" []).firstName = ""
    ∧ (buildRequest "203.0.113.9" []).lastName = ""
    ∧ (buildRequest "203.0.113.9" []).companyName = ""
    ∧ (buildRequest "203.0.113.9" []).emailAddress = ""
    ∧ (buildRequest "203.0.113.9" []).description = "" := by
  have h := C8_missing_fields "203.0.113.9" [] []
  exact ⟨h.1, h.2.1 rfl, h.2.2.1 rfl, h.2.2.2.1 rfl, h.2.2.2.2.1 rfl,
    h.2.2.2.2.2 rfl⟩

/-- C9 (confirmed): compiling the template text `Hello {{.FirstName}}`
and rendering it against a request whose FirstName is "Ana" yields
exactly the body "Hello Ana". -/
theorem C9_render_hello_ana :
    (parseTemplate "Hello \x7b\x7b.FirstName\x7d\x7d").map
        (fun t => renderParts { firstName := "Ana" } t) =
      some (.ok "Hello Ana") := by
  rfl

/-- C10 (confirmed): any inbound request whose method is not POST gets
the response (501, "Invalid request"), reads no outcome, submits nothing
to the worker queue, and therefore leaves the worker's processing of any
queue unchanged. -/
theorem C10_non_post (method : String) (pfOk : Bool)
    (form : List (String × String)) (addr : String)
    (replies : List EmailSendOutcome) (hm : method ≠ "POST") :
    clientHandler method pfOk form addr replies =
      { response := some ⟨501, "Invalid request"⟩, outcomesRead := 0
        submitted := [] }
    ∧ ∀ (h : Header) (recips : List Recipient)
        (render : EmailSendRequest → Except String String)
        (send : String → String → Option String)
        (reqs : List EmailSendRequest),
        emailerInstance h recips render send
            (reqs ++ (clientHandler method pfOk form addr replies).submitted) =
          emailerInstance h recips render send reqs := by
  have hcl : clientHandler method pfOk form addr replies =
      { response := some ⟨501, "Invalid request"⟩, outcomesRead := 0
        submitted := [] } := by
    simp [clientHandler, hm]
  refine ⟨hcl, ?_⟩
  intro h recips render send reqs
  rw [hcl]
  simp

/-- C10 witness. -/
theorem C10_non_post_witness :
    clientHandler "GET" true [] "198.51.100.7" [] =
      { response := some ⟨501, "Invalid request"⟩, outcomesRead := 0
        submitted := [] } :=
  (C10_non_post "GET" true [] "198.51.100.7" [] (by decide)).1

end EmailSender
